import Mathlib

/-!
Verification of the conversation session state machine implemented in
src/index.js (the body of the handler registered at /api/line-webhook).

The handler is embedded shallowly: every database or network call the
handler performs is supplied as an oracle value inside `Deps`, and every
call the handler issues is recorded as an `Effect`.  The engine therefore
becomes a pure, executable function from one inbound text event to the
list of effects it issues — or to a `thrown` outcome when the JavaScript
code lets an exception escape the per-event loop (the only such place is
the un-guarded fetch to the reply-generation service).  The per-delivery
loop over `body.events` is `processDelivery`.
-/

/-- List-level trim: drop whitespace from both ends.  Embeds the JS
String.prototype.trim used at `event.message.text.trim()`. -/
def trimList (cs : List Char) : List Char :=
  ((cs.dropWhile Char.isWhitespace).reverse.dropWhile Char.isWhitespace).reverse

/-- String form of `trimList`; the model of JS `.trim()`. -/
def jsTrim (s : String) : String :=
  ⟨trimList s.toList⟩

/-- JS `a || b` for a possibly-null string `a`: `null`, `undefined` and the
empty string are falsy and select `b`. -/
def jsStrOr (a : Option String) (b : String) : String :=
  match a with
  | none => b
  | some s => if s = "" then b else s

/-- Split a character list at every occurrence of `sep` (the list analogue of
JS `String.prototype.split`); used to state the email check. -/
def splitAtSep (sep : Char) : List Char → List (List Char)
  | [] => [[]]
  | c :: cs =>
    let r := splitAtSep sep cs
    if c = sep then [] :: r
    else
      match r with
      | [] => [[c]]
      | h :: t => (c :: h) :: t

/-- The language of the source's email check `/^[^\s@]+@[^\s@]+\.[^\s@]+$/`:
the string is `L ++ "@" ++ D` where `L` is non-empty with no whitespace and
no `@`, `D` has no whitespace and no `@`, and `D` contains a dot that has at
least one character before it and after it inside `D` (a match picks such a
dot as the literal `\.`; the blocks around it absorb any further dots).
Exactly one `@` occurs since the character class excludes `@`. -/
def emailRegexAccepts (s : String) : Bool :=
  match splitAtSep '@' s.toList with
  | [l, d] =>
    (!l.isEmpty) && l.all (fun c => !c.isWhitespace && !(c = '@'))
      && d.all (fun c => !c.isWhitespace && !(c = '@'))
      && ((d.drop 1).dropLast.contains '.')
  | _ => false

/-- Modelled from the spec's words for claim C9 only: "must contain exactly
one `@` with non-empty local and domain parts, and the domain must contain
a `.`".  Compared against `emailRegexAccepts`, which is the source's rule. -/
def emailSpecAccepts (s : String) : Bool :=
  match splitAtSep '@' s.toList with
  | [l, d] => (!l.isEmpty) && (!d.isEmpty) && d.contains '.'
  | _ => false

/-- A row of `user_profiles` as read by the handler (only `user_id` is
used after the initial lookup). -/
structure Profile where
  user_id : String
  deriving Repr, DecidableEq

/-- One user returned by `supabase.auth.admin.listUsers()`. -/
structure AuthUser where
  id : String
  email : String
  deriving Repr, DecidableEq

/-- A row of `people` as selected (`id, name`). -/
structure Person where
  id : String
  name : String
  deriving Repr, DecidableEq

/-- A row of `reply_profiles` as selected for generation
(`input_text, reply_text`). -/
structure ReplyPair where
  input_text : String
  reply_text : String
  deriving Repr, DecidableEq

/-- A row of `line_message_sessions`, restricted to the columns the handler
reads.  `status` is kept as a raw string exactly as in the database-row
state machine of the source. -/
structure Session where
  id : Nat
  status : String
  user_id : Option String := none
  message_text : Option String := none
  input_text : Option String := none
  generated_reply : Option String := none
  selected_person_id : Option String := none
  deriving Repr, DecidableEq

/-- Payload of an insert into `line_message_sessions`. -/
structure SessionInsert where
  line_user_id : String
  user_id : Option String := none
  reply_token : String
  status : String
  message_text : Option String := none
  created_at : String
  deriving Repr, DecidableEq

/-- Payload of an insert into `user_profiles`. -/
structure ProfileInsert where
  user_id : String
  line_user_id : String
  display_name : String
  created_at : String
  deriving Repr, DecidableEq

/-- Payload of an insert into `reply_profiles` (a new Reply Example). -/
structure ReplyExample where
  user_id : String
  person_id : Option String
  input_text : String
  reply_text : String
  created_at : String
  deriving Repr, DecidableEq

/-- Payload of an update of `line_message_sessions`: only the listed columns
are written, every `none` column is untouched. -/
structure SessionUpdate where
  status : Option String := none
  user_id : Option String := none
  selected_person_id : Option String := none
  input_text : Option String := none
  generated_reply : Option String := none
  deriving Repr, DecidableEq

/-- One outward call issued by the handler while processing one event.
`reply` is a `replyToLine` call carrying the texts of its message payloads
(quick-reply menus attached to a message are not modelled: per the platform
contract they only resend their `value` as ordinary inbound text).
`genCall` is the POST to the reply-generation service with its input text
and history. -/
inductive Effect where
  | reply (msgs : List String)
  | sessionInsert (s : SessionInsert)
  | sessionUpdate (id : Nat) (u : SessionUpdate)
  | profileInsert (p : ProfileInsert)
  | replyProfileInsert (r : ReplyExample)
  | genCall (inputText : String) (history : List ReplyPair)
  deriving Repr, DecidableEq

/-- Outcome of the fetch to the reply-generation service:
`networkThrow` — the awaited fetch (or reading its body) rejects, so the
exception escapes the event loop; `unparsable` — the body is not JSON
(`JSON.parse` throws, caught locally); `parsed r` — JSON with optional
`reply` field (absent/null/empty are all falsy). -/
inductive GenOutcome where
  | networkThrow
  | unparsable
  | parsed (reply : Option String)
  deriving Repr, DecidableEq

/-- Oracle answers for every dependency call one event's processing can
make.  `Except Unit` mirrors the supabase `{ data, error }` convention;
the `…Fails` booleans are for inserts whose error the code checks. -/
structure Deps where
  now : String
  cancelSessionRead : Except Unit (Option Session)
  profileRead : Except Unit (Option Profile)
  sessionRead : Except Unit (Option Session)
  listUsers : Except Unit (List AuthUser)
  profileCheck : Except Unit (List String)
  profileInsertFails : Bool
  sessionInsertFails : Bool
  peopleRead : Except Unit (List Person)
  replyProfilesRead : Except Unit (List ReplyPair)
  genOutcome : GenOutcome
  replyProfileInsertFails : Bool

/-- Result of processing one event: either the event completed (possibly
after an error that was handled with `continue`), or an exception escaped
and will abort the whole delivery. -/
inductive EventResult where
  | done (effects : List Effect)
  | thrown (effects : List Effect)
  deriving Repr, DecidableEq

def sysErrMsg : String := "システムエラーが発生しました。"

def cancelAckMsg : String := "終了しました。また必要な時にご利用ください。"

def emailPromptMsg : String := "こんにちは！このBotを使うにはメールアドレスを入力してください。"

def invalidEmailMsg : String := "有効なメールアドレスを入力してください。"

def notRegisteredMsg : String := "このメールアドレスは登録されていません。管理者にお問い合わせください。"

def profileInsertFailMsg : String := "プロフィール登録に失敗しました。管理者にお問い合わせください。"

def linkedConfirmMsg : String := "認証が完了しました。返信生成AIを使用しますか？"

def sendEmailMsg : String := "メールアドレスを送信してください。"

def useConfirmMsg : String := "返信生成AIを使用しますか？"

def noPersonsMsg : String := "人物が登録されていません。Webで人物を追加してください。"

def personSelectMsg : String := "誰のメッセージですか？以下から選択してください。"

def ackNoMsg : String := "了解しました。また何かあればお知らせください。"

def choosePersonMsg : String := "人物選択は候補からお選びください。"

/-- JS template literal: a null column interpolates as the text "null". -/
def showNullable (a : Option String) : String :=
  match a with
  | none => "null"
  | some s => s

def confirmCreateMsg (message_text : Option String) : String :=
  "一番最初のメッセージ内容:\n" ++ showNullable message_text ++ "\n\nこれに対して作成しますか？"

def genStartMsg : String := "返信生成を開始します。しばらくお待ちください..."

def inputPromptMsg : String := "どんな内容に対して作成しますか？メッセージを入力してください。"

def yesOrNoMsg : String := "「はい」か「いいえ」でお答えください。"

def genBadRespMsg : String := "返信生成APIの応答が不正です。"

def genFallback : String := "返信生成に失敗しました。"

def replyExampleMsg (generatedReply : String) : String :=
  "返信例:\n" ++ generatedReply

def sendActualMsg : String := "実際に送るメッセージを送ってください。"

def replySaveFailMsg : String := "返信ペアの保存に失敗しました。"

def savedMsg : String := "メッセージを保存しました。ありがとうございました！"

def unknownStateMsg : String := "申し訳ありませんが、現在その操作はできません。"

def cancelCommands : List String := ["やめる", "キャンセル", "終了"]

def selMark : String := "選択:"

/-- `text.startsWith('選択:')`. -/
def hasSelMark (text : String) : Bool :=
  selMark.toList.isPrefixOf text.toList

/-- `text.replace('選択:', '').trim()` under the `startsWith` guard: the
first occurrence of the marker is its leading occurrence, so the marker is
stripped from the front and the remainder is trimmed. -/
def selValue (text : String) : String :=
  jsTrim ⟨text.toList.drop selMark.toList.length⟩

/-- The cancel pre-check branch (`cancelCommands.includes(text)`). -/
def handleCancel (d : Deps) : EventResult :=
  match d.cancelSessionRead with
  | .error _ => .done [.reply [sysErrMsg]]
  | .ok none => .done [.reply [cancelAckMsg]]
  | .ok (some s) =>
    if s.status = "completed" then .done [.reply [cancelAckMsg]]
    else .done [.sessionUpdate s.id { status := some "completed" }, .reply [cancelAckMsg]]

/-- The `waiting_for_email` branch for an unregistered user. -/
def handleEmail (d : Deps) (lineUserId text : String) (sess : Session) : EventResult :=
  if emailRegexAccepts text then
    match d.listUsers with
    | .error _ => .done [.reply [sysErrMsg]]
    | .ok allUsers =>
      match allUsers.filter (fun u => u.email = text) with
      | [] => .done [.reply [notRegisteredMsg]]
      | user :: _ =>
        match d.profileCheck with
        | .error _ => .done [.reply [sysErrMsg]]
        | .ok existing =>
          if existing.isEmpty then
            let pin : ProfileInsert :=
              { user_id := user.id, line_user_id := lineUserId
                display_name := user.email, created_at := d.now }
            if d.profileInsertFails then
              .done [.profileInsert pin, .reply [profileInsertFailMsg]]
            else
              .done [.profileInsert pin,
                .sessionUpdate sess.id
                  { user_id := some user.id, status := some "waiting_for_use_confirmation" },
                .reply [linkedConfirmMsg]]
          else
            .done [.sessionUpdate sess.id
                { user_id := some user.id, status := some "waiting_for_use_confirmation" },
              .reply [linkedConfirmMsg]]
  else .done [.reply [invalidEmailMsg]]

/-- The `!userProfile` branch: no linked account. -/
def handleUnregistered (d : Deps) (lineUserId text replyToken : String)
    (lastSession : Option Session) : EventResult :=
  match lastSession with
  | none =>
    let ins : SessionInsert :=
      { line_user_id := lineUserId, reply_token := replyToken
        status := "waiting_for_email", created_at := d.now }
    if d.sessionInsertFails then .done [.sessionInsert ins, .reply [sysErrMsg]]
    else .done [.sessionInsert ins, .reply [emailPromptMsg]]
  | some sess =>
    if sess.status = "waiting_for_email" then handleEmail d lineUserId text sess
    else .done [.reply [sendEmailMsg]]

/-- New-session creation for a linked account (no active session, or the
most recent one is completed).  The insert's error is not checked in the
source, so the flow continues regardless. -/
def startSession (d : Deps) (profile : Profile) (lineUserId text replyToken : String) :
    EventResult :=
  .done [.sessionInsert
      { line_user_id := lineUserId, user_id := some profile.user_id
        reply_token := replyToken, status := "waiting_for_use_confirmation"
        message_text := some text, created_at := d.now },
    .reply [useConfirmMsg]]

/-- The `waiting_for_use_confirmation` branch.  Note the source's `else`:
every text other than the exact "はい" completes the session. -/
def handleUseConfirmation (d : Deps) (sess : Session) (text : String) : EventResult :=
  if text = "はい" then
    match d.peopleRead with
    | .error _ => .done [.reply [sysErrMsg]]
    | .ok people =>
      if people.isEmpty then .done [.reply [noPersonsMsg]]
      else
        .done [.sessionUpdate sess.id { status := some "waiting_for_person_selection" },
          .reply [personSelectMsg]]
  else
    .done [.sessionUpdate sess.id { status := some "completed" }, .reply [ackNoMsg]]

/-- The `waiting_for_person_selection` branch: any text starting with the
marker is accepted, its remainder stored unchecked, and the session moves to
`waiting_for_confirmation`. -/
def handlePersonSelection (d : Deps) (sess : Session) (text : String) : EventResult :=
  if hasSelMark text then
    .done [.sessionUpdate sess.id
        { selected_person_id := some (selValue text), status := some "waiting_for_confirmation" },
      .reply [confirmCreateMsg sess.message_text]]
  else .done [.reply [choosePersonMsg]]

/-- The `waiting_for_confirmation` branch. -/
def handleCreateConfirmation (d : Deps) (sess : Session) (text : String) : EventResult :=
  if text = "はい" then
    .done [.sessionUpdate sess.id { status := some "waiting_for_generated_reply" },
      .reply [genStartMsg]]
  else if text = "いいえ" then
    .done [.sessionUpdate sess.id { status := some "waiting_for_input_text" },
      .reply [inputPromptMsg]]
  else .done [.reply [yesOrNoMsg]]

/-- The shared tail of the two generation branches: fetch the ten most
recent reply pairs, POST to the generation service, and on a parsed
response store `openaiResult.reply || fallback` and advance to
`waiting_for_actual_reply_text`.  The fetch itself is not wrapped in a
try/catch in the source, so a rejected fetch is `thrown`. -/
def runGeneration (d : Deps) (sessId : Nat) (inputText : String) (pre : List Effect) :
    EventResult :=
  match d.replyProfilesRead with
  | .error _ => .done (pre ++ [.reply [sysErrMsg]])
  | .ok profiles =>
    match d.genOutcome with
    | .networkThrow => .thrown (pre ++ [.genCall inputText profiles])
    | .unparsable => .done (pre ++ [.genCall inputText profiles, .reply [genBadRespMsg]])
    | .parsed r =>
      let generatedReply := jsStrOr r genFallback
      .done (pre ++ [.genCall inputText profiles,
        .sessionUpdate sessId
          { generated_reply := some generatedReply, status := some "waiting_for_actual_reply_text" },
        .reply [replyExampleMsg generatedReply, sendActualMsg]])

/-- The `waiting_for_actual_reply_text` branch: persist the Reply Example and
complete the session.  The stored input text is
`lastSession.input_text || lastSession.message_text || ''`. -/
def handleActualReply (d : Deps) (profile : Profile) (sess : Session) (text : String) :
    EventResult :=
  let inputText := jsStrOr sess.input_text (jsStrOr sess.message_text "")
  let ins : ReplyExample :=
    { user_id := profile.user_id, person_id := sess.selected_person_id
      input_text := inputText, reply_text := text, created_at := d.now }
  if d.replyProfileInsertFails then .done [.replyProfileInsert ins, .reply [replySaveFailMsg]]
  else
    .done [.replyProfileInsert ins, .sessionUpdate sess.id { status := some "completed" },
      .reply [savedMsg]]

/-- State dispatch for a linked account, in the source's order of `if`s. -/
def handleLinked (d : Deps) (profile : Profile) (lineUserId text replyToken : String)
    (lastSession : Option Session) : EventResult :=
  match lastSession with
  | none => startSession d profile lineUserId text replyToken
  | some sess =>
    if sess.status = "completed" then startSession d profile lineUserId text replyToken
    else if sess.status = "waiting_for_use_confirmation" then handleUseConfirmation d sess text
    else if sess.status = "waiting_for_person_selection" then handlePersonSelection d sess text
    else if sess.status = "waiting_for_confirmation" then handleCreateConfirmation d sess text
    else if sess.status = "waiting_for_input_text" then
      runGeneration d sess.id text
        [.sessionUpdate sess.id
          { input_text := some text, status := some "waiting_for_generated_reply" }]
    else if sess.status = "waiting_for_generated_reply" then
      runGeneration d sess.id (jsStrOr sess.input_text (jsStrOr sess.message_text "")) []
    else if sess.status = "waiting_for_actual_reply_text" then
      handleActualReply d profile sess text
    else .done [.reply [unknownStateMsg]]

/-- Processing of one inbound text event, following the source top to
bottom: trim, cancel pre-check, profile lookup, active-session lookup,
then the unregistered or linked dispatch. -/
def processEvent (d : Deps) (lineUserId rawText replyToken : String) : EventResult :=
  let text := jsTrim rawText
  if text ∈ cancelCommands then handleCancel d
  else
    match d.profileRead with
    | .error _ => .done [.reply [sysErrMsg]]
    | .ok userProfile =>
      match d.sessionRead with
      | .error _ => .done [.reply [sysErrMsg]]
      | .ok lastSession =>
        match userProfile with
        | none => handleUnregistered d lineUserId text replyToken lastSession
        | some profile => handleLinked d profile lineUserId text replyToken lastSession

/-- One inbound text event of a delivery together with its oracle. -/
structure EventInput where
  deps : Deps
  lineUserId : String
  text : String
  replyToken : String

/-- Result of one webhook delivery: the effect lists of the events that
were processed, and whether the handler answered 200 OK or fell into the
outer catch (500).  Non-text events are skipped by the source before the
point modelled here. -/
inductive DeliveryResult where
  | ok (processed : List (List Effect))
  | serverError (processed : List (List Effect))
  deriving Repr, DecidableEq

/-- The `for (const event of body.events)` loop: an exception escaping one
event's processing aborts the loop and the whole delivery. -/
def processDelivery : List EventInput → DeliveryResult
  | [] => .ok []
  | e :: rest =>
    match processEvent e.deps e.lineUserId e.text e.replyToken with
    | .done effs =>
      match processDelivery rest with
      | .ok ls => .ok (effs :: ls)
      | .serverError ls => .serverError (effs :: ls)
    | .thrown effs => .serverError [effs]

def DeliveryResult.processed : DeliveryResult → List (List Effect)
  | .ok ls => ls
  | .serverError ls => ls

def effectsOf : EventResult → List Effect
  | .done l => l
  | .thrown l => l

def EventResult.throws : EventResult → Bool
  | .done _ => false
  | .thrown _ => true

/-- Does this effect persist a Reply Example? -/
def isReplyExampleIns : Effect → Bool
  | .replyProfileInsert _ => true
  | _ => false

/-- Does this effect write to the session table? -/
def isSessionWrite : Effect → Bool
  | .sessionInsert _ => true
  | .sessionUpdate _ _ => true
  | _ => false

/-- Does this effect set the session status to `st`? -/
def setsStatusTo (st : String) : Effect → Bool
  | .sessionInsert s => s.status = st
  | .sessionUpdate _ u => u.status = some st
  | _ => false

/-- A fully benign oracle used as the base of the concrete test fixtures. -/
def baseDeps : Deps :=
  { now := "2025-01-01T00:00:00.000Z"
    cancelSessionRead := .ok none
    profileRead := .ok none
    sessionRead := .ok none
    listUsers := .ok []
    profileCheck := .ok []
    profileInsertFails := false
    sessionInsertFails := false
    peopleRead := .ok []
    replyProfilesRead := .ok []
    genOutcome := .parsed (some "G")
    replyProfileInsertFails := false }

example : jsTrim "  はい " = "はい" := rfl

example : processEvent baseDeps "U" "hello" "tok" =
    .done [.sessionInsert { line_user_id := "U", reply_token := "tok"
                            status := "waiting_for_email", created_at := baseDeps.now },
      .reply [emailPromptMsg]] := rfl

example : processEvent baseDeps "U" "やめる" "tok" = .done [.reply [cancelAckMsg]] := rfl

example : emailSpecAccepts "a@.b" = true := rfl

example : emailRegexAccepts "a@.b" = false := rfl

example : emailRegexAccepts "foo@bar.com" = true := rfl

example : emailRegexAccepts "a b@c.d" = false := rfl

example : emailRegexAccepts "a@b.c.d" = true := rfl

example : selValue "選択:p1 " = "p1" := rfl

example : hasSelMark "選択:p1" = true := rfl

/-- A cancellation keyword routes into the pre-check branch. -/
theorem processEvent_cancel (d : Deps) (uid raw tok : String)
    (hc : jsTrim raw ∈ cancelCommands) :
    processEvent d uid raw tok = handleCancel d := by
  simp [processEvent, hc]

/-- A non-cancellation text for a conversation with no linked account routes
into the unregistered branch. -/
theorem processEvent_unreg (d : Deps) (uid raw tok : String) (ls : Option Session)
    (hnc : jsTrim raw ∉ cancelCommands)
    (hp : d.profileRead = .ok none) (hs : d.sessionRead = .ok ls) :
    processEvent d uid raw tok = handleUnregistered d uid (jsTrim raw) tok ls := by
  simp [processEvent, hnc, hp, hs]

/-- A non-cancellation text for a linked account routes into the linked
dispatch. -/
theorem processEvent_linked (d : Deps) (uid raw tok : String) (p : Profile)
    (ls : Option Session)
    (hnc : jsTrim raw ∉ cancelCommands)
    (hp : d.profileRead = .ok (some p)) (hs : d.sessionRead = .ok ls) :
    processEvent d uid raw tok = handleLinked d p uid (jsTrim raw) tok ls := by
  simp [processEvent, hnc, hp, hs]

/-- A failed profile read aborts the event with the generic error. -/
theorem processEvent_profileErr (d : Deps) (uid raw tok : String)
    (hnc : jsTrim raw ∉ cancelCommands)
    (hp : d.profileRead = .error ()) :
    processEvent d uid raw tok = .done [.reply [sysErrMsg]] := by
  simp [processEvent, hnc, hp]

/-- A failed active-session read aborts the event with the generic error. -/
theorem processEvent_sessionErr (d : Deps) (uid raw tok : String)
    (po : Option Profile)
    (hnc : jsTrim raw ∉ cancelCommands)
    (hp : d.profileRead = .ok po) (hs : d.sessionRead = .error ()) :
    processEvent d uid raw tok = .done [.reply [sysErrMsg]] := by
  cases po <;> simp [processEvent, hnc, hp, hs]

/-- Dispatch of the linked branch on each recognised status. -/
theorem handleLinked_useConf (d : Deps) (p : Profile) (uid text tok : String)
    (sess : Session) (hss : sess.status = "waiting_for_use_confirmation") :
    handleLinked d p uid text tok (some sess) = handleUseConfirmation d sess text := by
  simp [handleLinked, hss]

theorem handleLinked_personSel (d : Deps) (p : Profile) (uid text tok : String)
    (sess : Session) (hss : sess.status = "waiting_for_person_selection") :
    handleLinked d p uid text tok (some sess) = handlePersonSelection d sess text := by
  simp [handleLinked, hss]

theorem handleLinked_createConf (d : Deps) (p : Profile) (uid text tok : String)
    (sess : Session) (hss : sess.status = "waiting_for_confirmation") :
    handleLinked d p uid text tok (some sess) = handleCreateConfirmation d sess text := by
  simp [handleLinked, hss]

theorem handleLinked_inputText (d : Deps) (p : Profile) (uid text tok : String)
    (sess : Session) (hss : sess.status = "waiting_for_input_text") :
    handleLinked d p uid text tok (some sess) =
      runGeneration d sess.id text
        [.sessionUpdate sess.id
          { input_text := some text, status := some "waiting_for_generated_reply" }] := by
  simp [handleLinked, hss]

theorem handleLinked_generated (d : Deps) (p : Profile) (uid text tok : String)
    (sess : Session) (hss : sess.status = "waiting_for_generated_reply") :
    handleLinked d p uid text tok (some sess) =
      runGeneration d sess.id (jsStrOr sess.input_text (jsStrOr sess.message_text "")) [] := by
  simp [handleLinked, hss]

theorem handleLinked_actualReply (d : Deps) (p : Profile) (uid text tok : String)
    (sess : Session) (hss : sess.status = "waiting_for_actual_reply_text") :
    handleLinked d p uid text tok (some sess) = handleActualReply d p sess text := by
  simp [handleLinked, hss]

/-- `trimList` is right-trimming after left-trimming, in Mathlib terms. -/
theorem trimList_eq_rdropWhile (cs : List Char) :
    trimList cs = List.rdropWhile Char.isWhitespace (cs.dropWhile Char.isWhitespace) := rfl

/-- The head surviving a `dropWhile` fails the predicate. -/
theorem dropWhile_head_false {A : Type} (p : A → Bool) (l : List A) (a : A) (t : List A)
    (h : l.dropWhile p = a :: t) : p a = false := by
  induction l with
  | nil => simp [List.dropWhile] at h
  | cons b bs ih =>
    rw [List.dropWhile_cons] at h
    by_cases hb : p b
    · rw [if_pos hb] at h
      exact ih h
    · rw [if_neg hb] at h
      injection h with h1 h2
      subst h1
      simpa using hb

/-- Trimming is idempotent. -/
theorem trimList_idem (cs : List Char) : trimList (trimList cs) = trimList cs := by
  rw [trimList_eq_rdropWhile, trimList_eq_rdropWhile]
  obtain ⟨r, hr⟩ :=
    List.rdropWhile_prefix Char.isWhitespace (cs.dropWhile Char.isWhitespace)
  have hself :
      (List.rdropWhile Char.isWhitespace (cs.dropWhile Char.isWhitespace)).dropWhile
          Char.isWhitespace =
        List.rdropWhile Char.isWhitespace (cs.dropWhile Char.isWhitespace) := by
    cases ht : List.rdropWhile Char.isWhitespace (cs.dropWhile Char.isWhitespace) with
    | nil => simp
    | cons a s =>
      rw [ht] at hr
      have ha : Char.isWhitespace a = false := by
        apply dropWhile_head_false Char.isWhitespace cs a (s ++ r)
        rw [← hr]
        simp
      rw [List.dropWhile_cons, ha]
      simp
  rw [hself]
  exact List.rdropWhile_idempotent Char.isWhitespace (cs.dropWhile Char.isWhitespace)

/-- JS `.trim()` is idempotent, so the engine sees the same text whether it
receives the raw or the pre-trimmed message. -/
theorem jsTrim_idem (s : String) : jsTrim (jsTrim s) = jsTrim s :=
  congrArg String.mk (trimList_idem s.toList)

/-- Only a rejected generation fetch makes the generation tail throw. -/
theorem throws_runGeneration (d : Deps) (sid : Nat) (it : String) (pre : List Effect)
    (h : (runGeneration d sid it pre).throws = true) : d.genOutcome = .networkThrow := by
  unfold runGeneration at h
  cases hrp : d.replyProfilesRead with
  | error e => rw [hrp] at h; simp [EventResult.throws] at h
  | ok profs =>
    rw [hrp] at h
    cases hg : d.genOutcome with
    | networkThrow => rfl
    | unparsable => rw [hg] at h; simp [EventResult.throws] at h
    | parsed r => rw [hg] at h; simp [EventResult.throws] at h

/-- The cancel branch never throws. -/
theorem throws_handleCancel (d : Deps) : (handleCancel d).throws = false := by
  unfold handleCancel
  repeat' split
  all_goals rfl

/-- The email branch never throws. -/
theorem throws_handleEmail (d : Deps) (uid text : String) (sess : Session) :
    (handleEmail d uid text sess).throws = false := by
  unfold handleEmail
  repeat' split
  all_goals rfl

/-- The unregistered branch never throws. -/
theorem throws_handleUnregistered (d : Deps) (uid text tok : String) (ls : Option Session) :
    (handleUnregistered d uid text tok ls).throws = false := by
  cases ls with
  | none =>
    cases hb : d.sessionInsertFails <;>
      simp [handleUnregistered, EventResult.throws, hb]
  | some sess =>
    by_cases hst : sess.status = "waiting_for_email"
    · simp [handleUnregistered, hst, throws_handleEmail]
    · simp [handleUnregistered, hst, EventResult.throws]

/-- The linked dispatch throws only through the generation fetch. -/
theorem throws_handleLinked (d : Deps) (p : Profile) (uid text tok : String)
    (ls : Option Session) (h : (handleLinked d p uid text tok ls).throws = true) :
    d.genOutcome = .networkThrow := by
  unfold handleLinked startSession handleUseConfirmation handlePersonSelection
    handleCreateConfirmation handleActualReply at h
  cases ls with
  | none => simp [EventResult.throws] at h
  | some sess =>
    repeat' split at h
    all_goals
      first
        | exact throws_runGeneration _ _ _ _ h
        | simp [EventResult.throws] at h

/-- Processing one event throws only when the generation fetch rejects. -/
theorem throws_processEvent (d : Deps) (uid raw tok : String)
    (h : (processEvent d uid raw tok).throws = true) : d.genOutcome = .networkThrow := by
  simp only [processEvent] at h
  by_cases hc : jsTrim raw ∈ cancelCommands
  · rw [if_pos hc, throws_handleCancel] at h
    exact absurd h (by simp)
  · rw [if_neg hc] at h
    split at h
    · simp [EventResult.throws] at h
    · split at h
      · simp [EventResult.throws] at h
      · split at h
        · rw [throws_handleUnregistered] at h
          exact absurd h (by simp)
        · exact throws_handleLinked _ _ _ _ _ _ h

/-- An event whose generation fetch does not reject always completes. -/
theorem processEvent_done_of (d : Deps) (uid raw tok : String)
    (h : d.genOutcome ≠ .networkThrow) :
    ∃ effs, processEvent d uid raw tok = .done effs := by
  cases hr : processEvent d uid raw tok with
  | done l => exact ⟨l, rfl⟩
  | thrown l =>
    exact absurd (throws_processEvent d uid raw tok (by rw [hr]; rfl)) h

/-- C7: a message whose trimmed text is one of the cancellation keywords runs
the pre-check before any state dispatch: when a non-terminal session exists it
is marked completed with no other column written, a single cancellation
acknowledgment is sent, and the state machine is skipped entirely; when no
non-terminal session exists only the acknowledgment is sent.  This holds at
every non-terminal status. -/
theorem C7_cancel_precheck (d : Deps) (uid raw tok : String)
    (hc : jsTrim raw ∈ cancelCommands) :
    (∀ s : Session, d.cancelSessionRead = .ok (some s) → s.status ≠ "completed" →
      processEvent d uid raw tok =
        .done [.sessionUpdate s.id { status := some "completed" }, .reply [cancelAckMsg]]) ∧
    (d.cancelSessionRead = .ok none →
      processEvent d uid raw tok = .done [.reply [cancelAckMsg]]) := by
  constructor
  · intro s hs hnt
    rw [processEvent_cancel d uid raw tok hc]
    simp [handleCancel, hs, hnt]
  · intro hs
    rw [processEvent_cancel d uid raw tok hc]
    simp [handleCancel, hs]

def sessW7 : Session :=
  { id := 42, status := "waiting_for_input_text", user_id := some "u", message_text := some "m" }

def depsW7 : Deps := { baseDeps with cancelSessionRead := .ok (some sessW7) }

/-- Witness for C7 at a concrete non-terminal session and the keyword
"キャンセル". -/
theorem C7_witness :
    processEvent depsW7 "U" "キャンセル" "tok" =
      .done [.sessionUpdate 42 { status := some "completed" }, .reply [cancelAckMsg]] :=
  (C7_cancel_precheck depsW7 "U" "キャンセル" "tok" (by decide)).1 sessW7 rfl (by decide)

/-- C10: the engine trims the inbound text before any processing — its whole
behaviour depends only on the trimmed text — and the values it stores are the
trimmed message: the triggering text of a fresh linked session, the input
text captured at `waiting_for_input_text`, and the reply text of the
persisted Reply Example. -/
theorem C10_trimmed_processing (d : Deps) (uid raw tok : String) :
    processEvent d uid raw tok = processEvent d uid (jsTrim raw) tok ∧
    (∀ p : Profile, d.profileRead = .ok (some p) → jsTrim raw ∉ cancelCommands →
      (d.sessionRead = .ok none →
        processEvent d uid raw tok =
          .done [.sessionInsert
              { line_user_id := uid, user_id := some p.user_id, reply_token := tok
                status := "waiting_for_use_confirmation", message_text := some (jsTrim raw)
                created_at := d.now },
            .reply [useConfirmMsg]]) ∧
      (∀ sess : Session, d.sessionRead = .ok (some sess) →
        (sess.status = "waiting_for_input_text" →
          processEvent d uid raw tok =
            runGeneration d sess.id (jsTrim raw)
              [.sessionUpdate sess.id
                { input_text := some (jsTrim raw)
                  status := some "waiting_for_generated_reply" }]) ∧
        (sess.status = "waiting_for_actual_reply_text" → d.replyProfileInsertFails = false →
          processEvent d uid raw tok =
            .done [.replyProfileInsert
                { user_id := p.user_id, person_id := sess.selected_person_id
                  input_text := jsStrOr sess.input_text (jsStrOr sess.message_text "")
                  reply_text := jsTrim raw, created_at := d.now },
              .sessionUpdate sess.id { status := some "completed" },
              .reply [savedMsg]]))) := by
  refine ⟨?_, ?_⟩
  · simp only [processEvent]
    rw [jsTrim_idem]
  · intro p hp hnc
    refine ⟨?_, fun sess hs => ⟨?_, ?_⟩⟩
    · intro hs
      rw [processEvent_linked d uid raw tok p none hnc hp hs]
      simp [handleLinked, startSession]
    · intro hss
      rw [processEvent_linked d uid raw tok p (some sess) hnc hp hs]
      exact handleLinked_inputText d p uid (jsTrim raw) tok sess hss
    · intro hss hfail
      rw [processEvent_linked d uid raw tok p (some sess) hnc hp hs,
        handleLinked_actualReply d p uid (jsTrim raw) tok sess hss]
      simp [handleActualReply, hfail]

def sessW10a : Session :=
  { id := 11, status := "waiting_for_input_text", user_id := some "u"
    message_text := some "m", selected_person_id := some "p1" }

def depsW10a : Deps :=
  { baseDeps with profileRead := .ok (some ⟨"u"⟩), sessionRead := .ok (some sessW10a) }

def sessW10b : Session :=
  { id := 12, status := "waiting_for_actual_reply_text", user_id := some "u"
    message_text := some "m", input_text := some "topic", selected_person_id := some "p1" }

def depsW10b : Deps :=
  { baseDeps with profileRead := .ok (some ⟨"u"⟩), sessionRead := .ok (some sessW10b) }

/-- Witness for C10 at concrete inputs carrying real surrounding whitespace. -/
theorem C10_witness :
    processEvent depsW10a "U" " 報告 " "tok" = processEvent depsW10a "U" (jsTrim " 報告 ") "tok" ∧
    processEvent depsW10a "U" " 報告 " "tok" =
      runGeneration depsW10a 11 (jsTrim " 報告 ")
        [.sessionUpdate 11
          { input_text := some (jsTrim " 報告 "), status := some "waiting_for_generated_reply" }] ∧
    processEvent depsW10b "U" " 返信です " "tok" =
      .done [.replyProfileInsert
          { user_id := "u", person_id := some "p1", input_text := "topic"
            reply_text := jsTrim " 返信です ", created_at := depsW10b.now },
        .sessionUpdate 12 { status := some "completed" }, .reply [savedMsg]] :=
  ⟨(C10_trimmed_processing depsW10a "U" " 報告 " "tok").1,
   (((C10_trimmed_processing depsW10a "U" " 報告 " "tok").2 ⟨"u"⟩ rfl (by decide)).2
     sessW10a rfl).1 rfl,
   (((C10_trimmed_processing depsW10b "U" " 返信です " "tok").2 ⟨"u"⟩ rfl (by decide)).2
     sessW10b rfl).2 rfl rfl⟩

def sessC1 : Session :=
  { id := 3, status := "waiting_for_person_selection", user_id := some "u1"
    message_text := some "m" }

def depsC1 : Deps :=
  { baseDeps with profileRead := .ok (some ⟨"u1"⟩), sessionRead := .ok (some sessC1) }

/-- C1 counterexample: at `waiting_for_person_selection` a selection
referencing the person identifier p1 moves the session to
`waiting_for_confirmation` — not to the input-text state — and the prompt is
the stored-triggering-message confirmation, not the input prompt. -/
theorem C1_counterexample :
    processEvent depsC1 "U" "選択:p1" "tok" =
      .done [.sessionUpdate 3
          { selected_person_id := some "p1", status := some "waiting_for_confirmation" },
        .reply [confirmCreateMsg (some "m")]] ∧
    (effectsOf (processEvent depsC1 "U" "選択:p1" "tok")).all
      (fun e => !(setsStatusTo "waiting_for_input_text" e)) = true ∧
    confirmCreateMsg (some "m") ≠ inputPromptMsg :=
  ⟨rfl, rfl, by decide⟩

/-- C1 amended: at `waiting_for_person_selection`, any text starting with the
selection marker stores the marker-stripped remainder as the selected person
identifier — without validating it — and moves the session to
`waiting_for_confirmation`, presenting the stored triggering message with a
yes/no choice; any other text re-prompts to choose from the candidates and
issues no session write. -/
theorem C1_selection_behaviour (d : Deps) (uid raw tok : String) (p : Profile)
    (sess : Session)
    (hnc : jsTrim raw ∉ cancelCommands)
    (hp : d.profileRead = .ok (some p)) (hs : d.sessionRead = .ok (some sess))
    (hss : sess.status = "waiting_for_person_selection") :
    (hasSelMark (jsTrim raw) = true →
      processEvent d uid raw tok =
        .done [.sessionUpdate sess.id
            { selected_person_id := some (selValue (jsTrim raw))
              status := some "waiting_for_confirmation" },
          .reply [confirmCreateMsg sess.message_text]]) ∧
    (hasSelMark (jsTrim raw) = false →
      processEvent d uid raw tok = .done [.reply [choosePersonMsg]]) := by
  rw [processEvent_linked d uid raw tok p (some sess) hnc hp hs,
    handleLinked_personSel d p uid (jsTrim raw) tok sess hss]
  constructor
  · intro hm
    simp [handlePersonSelection, hm]
  · intro hm
    simp [handlePersonSelection, hm]

/-- Witness for C1 amended: a marked selection and an unmarked text. -/
theorem C1_witness :
    processEvent depsC1 "U" "選択:p9 " "tok" =
      .done [.sessionUpdate 3
          { selected_person_id := some "p9", status := some "waiting_for_confirmation" },
        .reply [confirmCreateMsg (some "m")]] ∧
    processEvent depsC1 "U" "こんにちは" "tok" = .done [.reply [choosePersonMsg]] :=
  ⟨(C1_selection_behaviour depsC1 "U" "選択:p9 " "tok" ⟨"u1"⟩ sessC1
      (by decide) rfl rfl rfl).1 rfl,
   (C1_selection_behaviour depsC1 "U" "こんにちは" "tok" ⟨"u1"⟩ sessC1
      (by decide) rfl rfl rfl).2 rfl⟩

/-- A parsed generation response with a falsy `reply` field yields the fixed
fallback and still advances to `waiting_for_actual_reply_text`. -/
theorem runGeneration_parsed_falsy (d : Deps) (sid : Nat) (it : String)
    (pre : List Effect) (profs : List ReplyPair)
    (hrp : d.replyProfilesRead = .ok profs)
    (hg : d.genOutcome = .parsed none ∨ d.genOutcome = .parsed (some "")) :
    runGeneration d sid it pre =
      .done (pre ++ [.genCall it profs,
        .sessionUpdate sid
          { generated_reply := some genFallback, status := some "waiting_for_actual_reply_text" },
        .reply [replyExampleMsg genFallback, sendActualMsg]]) := by
  rcases hg with hg | hg <;> simp [runGeneration, hrp, hg, jsStrOr]

/-- An unparsable generation response aborts the event with an error reply
and does not advance the session. -/
theorem runGeneration_unparsable (d : Deps) (sid : Nat) (it : String)
    (pre : List Effect) (profs : List ReplyPair)
    (hrp : d.replyProfilesRead = .ok profs)
    (hg : d.genOutcome = .unparsable) :
    runGeneration d sid it pre = .done (pre ++ [.genCall it profs, .reply [genBadRespMsg]]) := by
  simp [runGeneration, hrp, hg]

def sessC2 : Session :=
  { id := 5, status := "waiting_for_input_text", user_id := some "u1"
    message_text := some "m", selected_person_id := some "p1" }

def depsC2 : Deps :=
  { baseDeps with profileRead := .ok (some ⟨"u1"⟩), sessionRead := .ok (some sessC2)
                  genOutcome := .unparsable }

/-- C2 counterexample: an unparsable generation response does not substitute
the fallback and does not move the session to `waiting_for_actual_reply_text`;
the event aborts with the invalid-response error message. -/
theorem C2_counterexample :
    processEvent depsC2 "U" "topic" "tok" =
      .done [.sessionUpdate 5
          { input_text := some "topic", status := some "waiting_for_generated_reply" },
        .genCall "topic" [], .reply [genBadRespMsg]] ∧
    (effectsOf (processEvent depsC2 "U" "topic" "tok")).all
      (fun e => !(setsStatusTo "waiting_for_actual_reply_text" e)) = true :=
  ⟨rfl, rfl⟩

/-- C2 amended: at either generation step, a generation response that parses
as JSON but carries no usable `reply` field is replaced by the fixed fallback
string and the session still advances to `waiting_for_actual_reply_text`;
but a response that cannot be parsed as JSON aborts the current event with an
error message and no advance to `waiting_for_actual_reply_text` (at the
input-text step the session has already been moved to
`waiting_for_generated_reply` by then). -/
theorem C2_generation_fallback (d : Deps) (uid raw tok : String) (p : Profile)
    (sess : Session) (profs : List ReplyPair)
    (hnc : jsTrim raw ∉ cancelCommands)
    (hp : d.profileRead = .ok (some p)) (hs : d.sessionRead = .ok (some sess))
    (hrp : d.replyProfilesRead = .ok profs) :
    ((d.genOutcome = .parsed none ∨ d.genOutcome = .parsed (some "")) →
      (sess.status = "waiting_for_input_text" →
        processEvent d uid raw tok =
          .done [.sessionUpdate sess.id
              { input_text := some (jsTrim raw), status := some "waiting_for_generated_reply" },
            .genCall (jsTrim raw) profs,
            .sessionUpdate sess.id
              { generated_reply := some genFallback
                status := some "waiting_for_actual_reply_text" },
            .reply [replyExampleMsg genFallback, sendActualMsg]]) ∧
      (sess.status = "waiting_for_generated_reply" →
        processEvent d uid raw tok =
          .done [.genCall (jsStrOr sess.input_text (jsStrOr sess.message_text "")) profs,
            .sessionUpdate sess.id
              { generated_reply := some genFallback
                status := some "waiting_for_actual_reply_text" },
            .reply [replyExampleMsg genFallback, sendActualMsg]])) ∧
    (d.genOutcome = .unparsable →
      (sess.status = "waiting_for_input_text" →
        processEvent d uid raw tok =
          .done [.sessionUpdate sess.id
              { input_text := some (jsTrim raw), status := some "waiting_for_generated_reply" },
            .genCall (jsTrim raw) profs, .reply [genBadRespMsg]]) ∧
      (sess.status = "waiting_for_generated_reply" →
        processEvent d uid raw tok =
          .done [.genCall (jsStrOr sess.input_text (jsStrOr sess.message_text "")) profs,
            .reply [genBadRespMsg]])) := by
  refine ⟨fun hg => ⟨fun hss => ?_, fun hss => ?_⟩, fun hg => ⟨fun hss => ?_, fun hss => ?_⟩⟩ <;>
    rw [processEvent_linked d uid raw tok p (some sess) hnc hp hs]
  · rw [handleLinked_inputText d p uid (jsTrim raw) tok sess hss,
      runGeneration_parsed_falsy d sess.id (jsTrim raw) _ profs hrp hg]
    simp
  · rw [handleLinked_generated d p uid (jsTrim raw) tok sess hss,
      runGeneration_parsed_falsy d sess.id _ _ profs hrp hg]
    simp
  · rw [handleLinked_inputText d p uid (jsTrim raw) tok sess hss,
      runGeneration_unparsable d sess.id (jsTrim raw) _ profs hrp hg]
    simp
  · rw [handleLinked_generated d p uid (jsTrim raw) tok sess hss,
      runGeneration_unparsable d sess.id _ _ profs hrp hg]
    simp

def depsC2w : Deps :=
  { baseDeps with profileRead := .ok (some ⟨"u1"⟩), sessionRead := .ok (some sessC2)
                  genOutcome := .parsed none }

/-- Witness for C2 amended: a parsed response with no `reply` field. -/
theorem C2_witness :
    processEvent depsC2w "U" "topic" "tok" =
      .done [.sessionUpdate 5
          { input_text := some "topic", status := some "waiting_for_generated_reply" },
        .genCall "topic" [],
        .sessionUpdate 5
          { generated_reply := some genFallback, status := some "waiting_for_actual_reply_text" },
        .reply [replyExampleMsg genFallback, sendActualMsg]] :=
  ((C2_generation_fallback depsC2w "U" "topic" "tok" ⟨"u1"⟩ sessC2 []
      (by decide) rfl rfl rfl).1 (Or.inl rfl)).1 rfl

def sessC3 : Session :=
  { id := 7, status := "waiting_for_input_text", user_id := some "u1"
    message_text := some "m", selected_person_id := some "p1" }

def depsC3 : Deps :=
  { baseDeps with profileRead := .ok (some ⟨"u1"⟩), sessionRead := .ok (some sessC3)
                  replyProfilesRead := .error () }

/-- C3 counterexample: a failed history fetch at `waiting_for_input_text`
aborts the event with the generic error, but the session state is *not*
unchanged — the input text and the advance to `waiting_for_generated_reply`
were already written, so resending the same text enters a different branch. -/
theorem C3_counterexample :
    processEvent depsC3 "U" "topic" "tok" =
      .done [.sessionUpdate 7
          { input_text := some "topic", status := some "waiting_for_generated_reply" },
        .reply [sysErrMsg]] ∧
    (effectsOf (processEvent depsC3 "U" "topic" "tok")).any isSessionWrite = true :=
  ⟨rfl, rfl⟩

/-- C3 amended: dependency errors abort only the current event with the
generic error message, and for session-store reads, directory lookups and the
history fetch at the regeneration step no session write is issued; but at
`waiting_for_input_text` the session is updated (input text stored, status
advanced to `waiting_for_generated_reply`) before the history fetch, so a
history-fetch failure there leaves the session in the advanced state. -/
theorem C3_dependency_errors (d : Deps) (uid raw tok : String)
    (hnc : jsTrim raw ∉ cancelCommands) :
    (d.profileRead = .error () →
      processEvent d uid raw tok = .done [.reply [sysErrMsg]]) ∧
    (∀ po : Option Profile, d.profileRead = .ok po → d.sessionRead = .error () →
      processEvent d uid raw tok = .done [.reply [sysErrMsg]]) ∧
    (∀ sess : Session, d.profileRead = .ok none → d.sessionRead = .ok (some sess) →
      sess.status = "waiting_for_email" → emailRegexAccepts (jsTrim raw) = true →
      d.listUsers = .error () →
      processEvent d uid raw tok = .done [.reply [sysErrMsg]]) ∧
    (∀ (p : Profile) (sess : Session),
      d.profileRead = .ok (some p) → d.sessionRead = .ok (some sess) →
      sess.status = "waiting_for_generated_reply" → d.replyProfilesRead = .error () →
      processEvent d uid raw tok = .done [.reply [sysErrMsg]]) ∧
    (∀ (p : Profile) (sess : Session),
      d.profileRead = .ok (some p) → d.sessionRead = .ok (some sess) →
      sess.status = "waiting_for_input_text" → d.replyProfilesRead = .error () →
      processEvent d uid raw tok =
        .done [.sessionUpdate sess.id
            { input_text := some (jsTrim raw), status := some "waiting_for_generated_reply" },
          .reply [sysErrMsg]]) := by
  refine ⟨?_, ?_, ?_, ?_, ?_⟩
  · intro hp
    exact processEvent_profileErr d uid raw tok hnc hp
  · intro po hp hs
    exact processEvent_sessionErr d uid raw tok po hnc hp hs
  · intro sess hp hs hss hacc hl
    rw [processEvent_unreg d uid raw tok (some sess) hnc hp hs]
    simp [handleUnregistered, hss, handleEmail, hacc, hl]
  · intro p sess hp hs hss hrp
    rw [processEvent_linked d uid raw tok p (some sess) hnc hp hs,
      handleLinked_generated d p uid (jsTrim raw) tok sess hss]
    simp [runGeneration, hrp]
  · intro p sess hp hs hss hrp
    rw [processEvent_linked d uid raw tok p (some sess) hnc hp hs,
      handleLinked_inputText d p uid (jsTrim raw) tok sess hss]
    simp [runGeneration, hrp]

def depsC3w : Deps := { baseDeps with profileRead := .error () }

/-- Witness for C3 amended: a failed profile read and a failed history fetch
after the input-text update. -/
theorem C3_witness :
    processEvent depsC3w "U" "こんにちは" "tok" = .done [.reply [sysErrMsg]] ∧
    processEvent depsC3 "U" "topic" "tok" =
      .done [.sessionUpdate 7
          { input_text := some "topic", status := some "waiting_for_generated_reply" },
        .reply [sysErrMsg]] :=
  ⟨(C3_dependency_errors depsC3w "U" "こんにちは" "tok" (by decide)).1 rfl,
   (C3_dependency_errors depsC3 "U" "topic" "tok" (by decide)).2.2.2.2 ⟨"u1"⟩ sessC3
     rfl rfl rfl rfl⟩

def sessC4 : Session :=
  { id := 4, status := "waiting_for_use_confirmation", user_id := some "u1"
    message_text := some "m" }

def depsC4 : Deps :=
  { baseDeps with profileRead := .ok (some ⟨"u1"⟩), sessionRead := .ok (some sessC4) }

/-- C4 counterexample: at `waiting_for_use_confirmation` a text that is
neither "はい" nor "いいえ" does not re-prompt with the state unchanged — the
source's `else` completes the session and acknowledges. -/
theorem C4_counterexample :
    processEvent depsC4 "U" "こんにちは" "tok" =
      .done [.sessionUpdate 4 { status := some "completed" }, .reply [ackNoMsg]] ∧
    (effectsOf (processEvent depsC4 "U" "こんにちは" "tok")).any
      (setsStatusTo "completed") = true :=
  ⟨rfl, rfl⟩

/-- C4 amended: at `waiting_for_use_confirmation`, the exact text "はい"
proceeds towards person listing, and *every* other text — "いいえ" as well as
arbitrary text — is treated as "no": the session is marked completed and the
terminal acknowledgment is sent; there is no re-prompt branch at this
state. -/
theorem C4_use_confirmation (d : Deps) (uid raw tok : String) (p : Profile)
    (sess : Session)
    (hnc : jsTrim raw ∉ cancelCommands)
    (hp : d.profileRead = .ok (some p)) (hs : d.sessionRead = .ok (some sess))
    (hss : sess.status = "waiting_for_use_confirmation")
    (hno : jsTrim raw ≠ "はい") :
    processEvent d uid raw tok =
      .done [.sessionUpdate sess.id { status := some "completed" }, .reply [ackNoMsg]] := by
  rw [processEvent_linked d uid raw tok p (some sess) hnc hp hs,
    handleLinked_useConf d p uid (jsTrim raw) tok sess hss]
  simp [handleUseConfirmation, hno]

/-- Witness for C4 amended: the explicit "いいえ" and an arbitrary text both
complete the session with the acknowledgment. -/
theorem C4_witness :
    processEvent depsC4 "U" "いいえ" "tok" =
      .done [.sessionUpdate 4 { status := some "completed" }, .reply [ackNoMsg]] ∧
    processEvent depsC4 "U" "何でもない" "tok" =
      .done [.sessionUpdate 4 { status := some "completed" }, .reply [ackNoMsg]] :=
  ⟨C4_use_confirmation depsC4 "U" "いいえ" "tok" ⟨"u1"⟩ sessC4
      (by decide) rfl rfl rfl (by decide),
   C4_use_confirmation depsC4 "U" "何でもない" "tok" ⟨"u1"⟩ sessC4
      (by decide) rfl rfl rfl (by decide)⟩

def sessC5 : Session :=
  { id := 21, status := "waiting_for_input_text", user_id := some "u1"
    message_text := some "m", selected_person_id := some "p1" }

def depsC5bad : Deps :=
  { baseDeps with profileRead := .ok (some ⟨"u1"⟩), sessionRead := .ok (some sessC5)
                  genOutcome := .networkThrow }

def evC5a : EventInput :=
  { deps := depsC5bad, lineUserId := "U1", text := "topic", replyToken := "t1" }

def evC5b : EventInput :=
  { deps := baseDeps, lineUserId := "U2", text := "hello", replyToken := "t2" }

/-- C5 counterexample: in a two-event delivery, a rejected generation fetch
while processing the first event aborts the delivery (500), and the second
event — which on its own would be processed — is never handled. -/
theorem C5_counterexample :
    processDelivery [evC5a, evC5b] =
      .serverError [[.sessionUpdate 21
          { input_text := some "topic", status := some "waiting_for_generated_reply" },
        .genCall "topic" []]] ∧
    processDelivery [evC5b] =
      .ok [[.sessionInsert
          { line_user_id := "U2", reply_token := "t2", status := "waiting_for_email"
            created_at := baseDeps.now },
        .reply [emailPromptMsg]]] ∧
    (processDelivery [evC5a, evC5b]).processed.length = 1 :=
  ⟨rfl, rfl, rfl⟩

/-- C5 amended: dependency failures that the supabase calls report as error
results abort only the current event, and every event of the delivery is
still processed; but a generation fetch that rejects (network failure) is not
caught per-event — it aborts the whole delivery, skipping the remaining
events.  When no event's generation fetch rejects, the delivery processes
every event. -/
theorem C5_event_isolation :
    ∀ evs : List EventInput,
      (∀ e ∈ evs, e.deps.genOutcome ≠ GenOutcome.networkThrow) →
      ∃ ls, processDelivery evs = .ok ls ∧ ls.length = evs.length := by
  intro evs
  induction evs with
  | nil => exact fun _ => ⟨[], rfl, rfl⟩
  | cons e rest ih =>
    intro h
    obtain ⟨effs, he⟩ :=
      processEvent_done_of e.deps e.lineUserId e.text e.replyToken (h e (by simp))
    obtain ⟨ls, hl, hlen⟩ := ih (fun x hx => h x (by simp [hx]))
    exact ⟨effs :: ls, by simp [processDelivery, he, hl], by simp [hlen]⟩

def evC5c : EventInput :=
  { deps := depsC4, lineUserId := "U3", text := "いいえ", replyToken := "t3" }

/-- Witness for C5 amended: a delivery of two events with arbitrary
per-event failures other than a rejected generation fetch processes both. -/
theorem C5_witness :
    ∃ ls, processDelivery [evC5b, evC5c] = .ok ls ∧
      ls.length = [evC5b, evC5c].length :=
  C5_event_isolation [evC5b, evC5c] (by decide)

def sessC6 : Session :=
  { id := 8, status := "waiting_for_actual_reply_text", user_id := some "u1"
    message_text := some "m", selected_person_id := some "p1" }

def depsC6 : Deps :=
  { baseDeps with profileRead := .ok (some ⟨"u1"⟩), sessionRead := .ok (some sessC6) }

/-- C6 counterexample: a session that reached `waiting_for_actual_reply_text`
without ever storing an input text (its `input_text` column is null) persists
a Reply Example whose input text is the *triggering message* "m", not the
session's stored input text. -/
theorem C6_counterexample :
    processEvent depsC6 "U" "r" "tok" =
      .done [.replyProfileInsert
          { user_id := "u1", person_id := some "p1", input_text := "m"
            reply_text := "r", created_at := baseDeps.now },
        .sessionUpdate 8 { status := some "completed" }, .reply [savedMsg]] ∧
    sessC6.input_text = none ∧
    (some "m" : Option String) ≠ sessC6.input_text :=
  ⟨rfl, rfl, by decide⟩

/-- C6 amended: at `waiting_for_actual_reply_text` (and when the insert
succeeds), exactly one Reply Example is persisted, whose input text is the
session's stored input text when present and non-empty, otherwise the
session's stored triggering message when present and non-empty, otherwise
the empty string; its reply text is the trimmed inbound message, its person
the session's selected person, its account the linked account; the session
is then completed and a confirmation is sent. -/
theorem C6_actual_reply (d : Deps) (uid raw tok : String) (p : Profile)
    (sess : Session)
    (hnc : jsTrim raw ∉ cancelCommands)
    (hp : d.profileRead = .ok (some p)) (hs : d.sessionRead = .ok (some sess))
    (hss : sess.status = "waiting_for_actual_reply_text")
    (hfail : d.replyProfileInsertFails = false) :
    processEvent d uid raw tok =
      .done [.replyProfileInsert
          { user_id := p.user_id, person_id := sess.selected_person_id
            input_text := jsStrOr sess.input_text (jsStrOr sess.message_text "")
            reply_text := jsTrim raw, created_at := d.now },
        .sessionUpdate sess.id { status := some "completed" }, .reply [savedMsg]] ∧
    (effectsOf (processEvent d uid raw tok)).countP isReplyExampleIns = 1 := by
  have h1 : processEvent d uid raw tok =
      .done [.replyProfileInsert
          { user_id := p.user_id, person_id := sess.selected_person_id
            input_text := jsStrOr sess.input_text (jsStrOr sess.message_text "")
            reply_text := jsTrim raw, created_at := d.now },
        .sessionUpdate sess.id { status := some "completed" }, .reply [savedMsg]] := by
    rw [processEvent_linked d uid raw tok p (some sess) hnc hp hs,
      handleLinked_actualReply d p uid (jsTrim raw) tok sess hss]
    simp [handleActualReply, hfail]
  refine ⟨h1, ?_⟩
  rw [h1]
  simp [effectsOf, List.countP_cons, isReplyExampleIns]

def sessC6w : Session :=
  { id := 9, status := "waiting_for_actual_reply_text", user_id := some "u1"
    message_text := some "m", input_text := some "topic", selected_person_id := some "p1" }

def depsC6w : Deps :=
  { baseDeps with profileRead := .ok (some ⟨"u1"⟩), sessionRead := .ok (some sessC6w) }

/-- Witness for C6 amended at a session whose input text is present. -/
theorem C6_witness :
    processEvent depsC6w "U" "了解です" "tok" =
      .done [.replyProfileInsert
          { user_id := "u1", person_id := some "p1", input_text := "topic"
            reply_text := "了解です", created_at := baseDeps.now },
        .sessionUpdate 9 { status := some "completed" }, .reply [savedMsg]] ∧
    (effectsOf (processEvent depsC6w "U" "了解です" "tok")).countP isReplyExampleIns = 1 :=
  C6_actual_reply depsC6w "U" "了解です" "tok" ⟨"u1"⟩ sessC6w (by decide) rfl rfl rfl rfl

/-- The cancel branch never persists a Reply Example. -/
theorem handleCancel_noReplyExample (d : Deps) :
    (effectsOf (handleCancel d)).countP isReplyExampleIns = 0 := by
  unfold handleCancel
  repeat' split
  all_goals simp [effectsOf, List.countP_cons, isReplyExampleIns]

/-- C8 counterexample: for a conversation identity with no profile and no
session, the very first text message "やめる" — a cancellation keyword — does
not create a session at all: the cancel pre-check answers the acknowledgment
and skips session creation. -/
theorem C8_counterexample :
    processEvent baseDeps "U" "やめる" "tok" = .done [.reply [cancelAckMsg]] ∧
    (effectsOf (processEvent baseDeps "U" "やめる" "tok")).all
      (fun e => !(isSessionWrite e)) = true :=
  ⟨rfl, rfl⟩

/-- C8 amended: for a conversation identity with no prior session and no
linked account, every first text message that is not a cancellation keyword
creates a session in `waiting_for_email` with the email prompt (when the
insert succeeds); and no first message — cancellation keywords included —
ever creates a Reply Example. -/
theorem C8_first_contact (d : Deps) (uid raw tok : String)
    (hp : d.profileRead = .ok none) (hs : d.sessionRead = .ok none)
    (hins : d.sessionInsertFails = false) :
    (jsTrim raw ∉ cancelCommands →
      processEvent d uid raw tok =
        .done [.sessionInsert
            { line_user_id := uid, user_id := none, reply_token := tok
              status := "waiting_for_email", message_text := none, created_at := d.now },
          .reply [emailPromptMsg]]) ∧
    (effectsOf (processEvent d uid raw tok)).countP isReplyExampleIns = 0 := by
  constructor
  · intro hnc
    rw [processEvent_unreg d uid raw tok none hnc hp hs]
    simp [handleUnregistered, hins]
  · by_cases hc : jsTrim raw ∈ cancelCommands
    · rw [processEvent_cancel d uid raw tok hc]
      exact handleCancel_noReplyExample d
    · rw [processEvent_unreg d uid raw tok none hc hp hs]
      cases hb : d.sessionInsertFails <;>
        simp [handleUnregistered, hb, effectsOf, List.countP_cons, isReplyExampleIns]

/-- Witness for C8 amended at a plain first message. -/
theorem C8_witness :
    processEvent baseDeps "U" "こんにちは" "tok" =
      .done [.sessionInsert
          { line_user_id := "U", user_id := none, reply_token := "tok"
            status := "waiting_for_email", message_text := none, created_at := baseDeps.now },
        .reply [emailPromptMsg]] ∧
    (effectsOf (processEvent baseDeps "U" "こんにちは" "tok")).countP isReplyExampleIns = 0 :=
  ⟨(C8_first_contact baseDeps "U" "こんにちは" "tok" rfl rfl rfl).1 (by decide),
   (C8_first_contact baseDeps "U" "こんにちは" "tok" rfl rfl rfl).2⟩

def sessC9 : Session := { id := 31, status := "waiting_for_email" }

def depsC9 : Deps := { baseDeps with sessionRead := .ok (some sessC9) }

/-- C9 counterexample: "a@.b" satisfies the spec's stated rule (exactly one
`@`, non-empty local and domain parts, domain contains a dot) but the
source's regex rejects it — the engine re-prompts instead of accepting. -/
theorem C9_counterexample :
    emailSpecAccepts "a@.b" = true ∧
    emailRegexAccepts "a@.b" = false ∧
    processEvent depsC9 "U" "a@.b" "tok" = .done [.reply [invalidEmailMsg]] :=
  ⟨rfl, rfl, rfl⟩

/-- C9 amended: at `waiting_for_email` the submitted text is accepted exactly
when it lies in the regex's language — exactly one `@`, a non-empty local
part free of whitespace, and a whitespace-free domain containing a dot with
at least one character before it and after it inside the domain; on failure
the engine re-prompts with no session write, and on success it proceeds to
the directory lookup. -/
theorem C9_email_validation (d : Deps) (uid raw tok : String) (sess : Session)
    (hnc : jsTrim raw ∉ cancelCommands)
    (hp : d.profileRead = .ok none) (hs : d.sessionRead = .ok (some sess))
    (hss : sess.status = "waiting_for_email") :
    (emailRegexAccepts (jsTrim raw) = false →
      processEvent d uid raw tok = .done [.reply [invalidEmailMsg]]) ∧
    (emailRegexAccepts (jsTrim raw) = true →
      ∀ us : List AuthUser, d.listUsers = .ok us →
        us.filter (fun u => u.email = jsTrim raw) = [] →
        processEvent d uid raw tok = .done [.reply [notRegisteredMsg]]) := by
  have hbase : processEvent d uid raw tok = handleEmail d uid (jsTrim raw) sess := by
    rw [processEvent_unreg d uid raw tok (some sess) hnc hp hs]
    simp [handleUnregistered, hss]
  constructor
  · intro hacc
    rw [hbase]
    simp [handleEmail, hacc]
  · intro hacc us hl hf
    rw [hbase]
    simp [handleEmail, hacc, hl, hf]

/-- Witness for C9 amended: a rejected and an accepted concrete email. -/
theorem C9_witness :
    processEvent depsC9 "U" "not an email" "tok" = .done [.reply [invalidEmailMsg]] ∧
    processEvent depsC9 "U" "foo@bar.com" "tok" = .done [.reply [notRegisteredMsg]] :=
  ⟨(C9_email_validation depsC9 "U" "not an email" "tok" sessC9 (by decide) rfl rfl rfl).1 rfl,
   (C9_email_validation depsC9 "U" "foo@bar.com" "tok" sessC9 (by decide) rfl rfl rfl).2
     rfl [] rfl rfl⟩
